import Mathlib

/-!
Shallow embedding of the symptom-checker's AI-service layer
(`src/unnamed/part_000`, a Vite/React app) and of the symptom form
(`src/src/components/SymptomForm.jsx`).

JavaScript values that can appear in a parsed JSON document are modelled
by the inductive `Json`; JS numbers are modelled as `Option ℚ`, where
`none` stands for `NaN` (JSON.parse itself never yields `NaN`, but the
`Math.max`/`Math.min` coercions in `parseAIResponse` can produce it).
All rationals are built with `mkRat` and compared with `Rat.blt`, so
every definition evaluates by kernel reduction.
-/

/-- A JSON value as produced by `JSON.parse`. -/
inductive Json where
  | null : Json
  | bool (b : Bool) : Json
  | num (q : ℚ) : Json
  | str (s : String) : Json
  | arr (xs : List Json) : Json
  | obj (fields : List (String × Json)) : Json

/-- JS truthiness of a defined value: `null`, `false`, `0` and `""` are
falsy; every array and object (even empty ones) is truthy. -/
def truthyJson : Json → Bool
  | .null => false
  | .bool b => b
  | .num q => decide (q ≠ 0)
  | .str s => decide (s ≠ "")
  | .arr _ => true
  | .obj _ => true

/-- Property access `o.k` on a parsed JSON value: `none` models
`undefined` (missing field, or receiver not an object).  With duplicate
keys `JSON.parse` keeps the last occurrence, hence the `reverse`. -/
def getField : Json → String → Option Json
  | .obj fs, k => fs.reverse.lookup k
  | _, _ => none

/-- `max` on `ℚ` through `Rat.blt`, so that it evaluates by kernel
reduction (the `Max ℚ` instance does not). -/
def ratMax (a b : ℚ) : ℚ := if Rat.blt b a then a else b

/-- `min` on `ℚ` through `Rat.blt`, so that it evaluates by kernel
reduction (the `Min ℚ` instance does not). -/
def ratMin (a b : ℚ) : ℚ := if Rat.blt b a then b else a

/-- Value of a list of decimal digit characters. -/
def digitsVal (ds : List Char) : Nat :=
  ds.foldl (fun n c => n * 10 + (c.toNat - 48)) 0

/-- The rational `± intDs . fracDs × 10 ^ e`, built with `mkRat` only
(so it evaluates by kernel reduction). -/
def buildRat (neg : Bool) (intDs fracDs : List Char) (e : Int) : ℚ :=
  let mant : Nat := digitsVal intDs * 10 ^ fracDs.length + digitsVal fracDs
  let shift : Int := e - fracDs.length
  let v : ℚ :=
    if 0 ≤ shift then mkRat (mant * 10 ^ shift.toNat : Nat) 1
    else mkRat mant (10 ^ (-shift).toNat)
  if neg then Rat.neg v else v

/-- JS whitespace, as trimmed by `String.prototype.trim` and `Number`
(the common ASCII part; exotic Unicode space classes are not modelled —
no claim depends on them). -/
def isJsWs (c : Char) : Bool :=
  c = ' ' ∨ c = '\t' ∨ c = '\n' ∨ c = '\r' ∨ c = '\x0b' ∨ c = '\x0c'

/-- Strip leading and trailing JS whitespace from a character list. -/
def trimChars (cs : List Char) : List Char :=
  ((cs.dropWhile isJsWs).reverse.dropWhile isJsWs).reverse

/-- Parse an optionally signed decimal literal with optional fraction
and exponent, consuming the whole list; `none` is `NaN`. -/
def jsNumLit (cs : List Char) : Option ℚ :=
  let (neg, cs₁) : Bool × List Char :=
    match cs with
    | '-' :: r => (true, r)
    | '+' :: r => (false, r)
    | _ => (false, cs)
  let (intDs, cs₂) := cs₁.span Char.isDigit
  let (fracDs, cs₃) : List Char × List Char :=
    match cs₂ with
    | '.' :: r => r.span Char.isDigit
    | _ => ([], cs₂)
  if intDs = [] ∧ fracDs = [] then none else
  match cs₃ with
  | [] => some (buildRat neg intDs fracDs 0)
  | e :: r =>
    if e = 'e' ∨ e = 'E' then
      let (esgn, r₁) : Bool × List Char :=
        match r with
        | '-' :: r₂ => (true, r₂)
        | '+' :: r₂ => (false, r₂)
        | _ => (false, r)
      let (expDs, r₂) := r₁.span Char.isDigit
      if expDs = [] ∨ r₂ ≠ [] then none
      else some (buildRat neg intDs fracDs (if esgn then -(digitsVal expDs : Int) else (digitsVal expDs : Int)))
    else none

/-- JS `ToNumber` on a string (`Number(s)`): surrounding whitespace is
ignored and the empty string is `0`.  Only decimal literals are
modelled; other forms (hex, `Infinity`, …) are modelled as `NaN` — no
claim depends on them. -/
def strToNum (s : String) : Option ℚ :=
  let cs := trimChars s.toList
  if cs = [] then some 0 else jsNumLit cs

/-- JS `ToNumber` of a defined value, as used by `Math.max`/`Math.min`.
`none` is `NaN`.  Array/object coercion (via `toString`) is modelled as
`NaN`; no claim depends on it. -/
def toNum : Json → Option ℚ
  | .null => some 0
  | .bool b => some (if b then 1 else 0)
  | .num q => some q
  | .str s => strToNum s
  | .arr _ => none
  | .obj _ => none

/-- `v || d` where `v` is a (possibly undefined) field and the default
`d` is a number: the field's numeric coercion if the field is truthy,
otherwise `d`. -/
def jsOrNum (v : Option Json) (d : ℚ) : Option ℚ :=
  match v with
  | some j => if truthyJson j then toNum j else some d
  | none => some d

/-- `v || d` for a general default: the field's value itself if truthy,
otherwise `d`. -/
def jsOr (v : Option Json) (d : Json) : Json :=
  match v with
  | some j => if truthyJson j then j else d
  | none => d

/-- `Math.max` on JS numbers (`NaN` propagates). -/
def jsMax : Option ℚ → Option ℚ → Option ℚ
  | some a, some b => some (ratMax a b)
  | _, _ => none

/-- `Math.min` on JS numbers (`NaN` propagates). -/
def jsMin : Option ℚ → Option ℚ → Option ℚ
  | some a, some b => some (ratMin a b)
  | _, _ => none

/-- The canonical record produced by `AIService.parseAIResponse`
(lines 538–544): the raw `condition` field passed through (possibly
`undefined`), a JS-number `confidence`, and the `||`-defaulted
`urgency`, `steps`, `description` values. -/
structure DiagnosisRecord where
  condition : Option Json
  confidence : Option ℚ
  urgency : Json
  steps : Json
  description : Json

/-- The per-element mapping of `parseAIResponse` (lines 538–544):
`condition.condition` as-is,
`Math.min(Math.max(condition.confidence || 0.5, 0), 1)`,
`condition.urgency || 'low'`, `condition.steps || []`,
`condition.description || ''`. -/
def normalizeCondition (c : Json) : DiagnosisRecord :=
  { condition := getField c "condition"
    confidence := jsMin (jsMax (jsOrNum (getField c "confidence") (mkRat 1 2)) (some 0)) (some 1)
    urgency := jsOr (getField c "urgency") (Json.str "low")
    steps := jsOr (getField c "steps") (Json.arr [])
    description := jsOr (getField c "description") (Json.str "") }

example : (normalizeCondition (Json.obj [("confidence", Json.num 0)])).confidence = some (mkRat 1 2) := by decide
example : (normalizeCondition (Json.obj [("confidence", Json.num (mkRat 7 5))])).confidence = some 1 := by decide
example : (normalizeCondition (Json.obj [("confidence", Json.num (mkRat (-3) 10))])).confidence = some 0 := by decide
example : (normalizeCondition (Json.obj [("urgency", Json.str "")])).urgency = Json.str "low" := rfl
example : (normalizeCondition (Json.obj [("urgency", Json.str "critical")])).urgency = Json.str "critical" := rfl
example : strToNum " 1.5e1 " = some (mkRat 15 1) := by decide
example : strToNum "" = some 0 := by decide
example : strToNum "abc" = none := by decide

/-! ### JSON parsing (`JSON.parse` on the extracted brace span) -/

/-- JSON whitespace. -/
def isJsonWs (c : Char) : Bool :=
  c = ' ' ∨ c = '\n' ∨ c = '\t' ∨ c = '\r'

/-- Skip JSON whitespace. -/
def skipWs : List Char → List Char
  | c :: rest => if isJsonWs c then skipWs rest else c :: rest
  | [] => []

/-- Hexadecimal digit character. -/
def isHexCh (c : Char) : Bool :=
  c.isDigit ∨ ('a' ≤ c ∧ c ≤ 'f') ∨ ('A' ≤ c ∧ c ≤ 'F')

/-- Parse the body of a JSON string literal (after the opening quote),
returning the string and the remainder after the closing quote. -/
def parseStringBody : Nat → List Char → List Char → Option (String × List Char)
  | 0, _, _ => none
  | _ + 1, [], _ => none
  | f + 1, c :: rest, acc =>
    if c = '"' then some (String.mk acc.reverse, rest)
    else if c = '\\' then
      match rest with
      | [] => none
      | e :: rest₂ =>
        if e = '"' then parseStringBody f rest₂ ('"' :: acc)
        else if e = '\\' then parseStringBody f rest₂ ('\\' :: acc)
        else if e = '/' then parseStringBody f rest₂ ('/' :: acc)
        else if e = 'n' then parseStringBody f rest₂ ('\n' :: acc)
        else if e = 't' then parseStringBody f rest₂ ('\t' :: acc)
        else if e = 'r' then parseStringBody f rest₂ ('\r' :: acc)
        else if e = 'b' then parseStringBody f rest₂ ('\x08' :: acc)
        else if e = 'f' then parseStringBody f rest₂ ('\x0c' :: acc)
        else if e = 'u' then
          match rest₂ with
          | h₁ :: h₂ :: h₃ :: h₄ :: rest₃ =>
            if isHexCh h₁ ∧ isHexCh h₂ ∧ isHexCh h₃ ∧ isHexCh h₄ then
              let n := ((h₁.toNat % 16 + (if h₁.isDigit then 0 else 9)) * 16 +
                        (h₂.toNat % 16 + (if h₂.isDigit then 0 else 9))) * 16 * 16 +
                       (h₃.toNat % 16 + (if h₃.isDigit then 0 else 9)) * 16 +
                       (h₄.toNat % 16 + (if h₄.isDigit then 0 else 9))
              parseStringBody f rest₃ (Char.ofNat n :: acc)
            else none
          | _ => none
        else none
    else if c.toNat < 32 then none
    else parseStringBody f rest (c :: acc)

/-- Parse a JSON number (strict JSON grammar: `-?(0|[1-9][0-9]*)`
with optional `.digits` fraction and optional exponent). -/
def parseJsonNumber (cs : List Char) : Option (ℚ × List Char) :=
  let (neg, cs₁) : Bool × List Char :=
    match cs with
    | '-' :: r => (true, r)
    | _ => (false, cs)
  match cs₁ with
  | c :: _ =>
    if ¬ c.isDigit then none else
    let (intDs, cs₂) := cs₁.span Char.isDigit
    if c = '0' ∧ 1 < intDs.length then none else
    let (fracDs, cs₃) : List Char × List Char :=
      match cs₂ with
      | '.' :: r => r.span Char.isDigit
      | _ => ([], cs₂)
    if cs₂ ≠ cs₃ ∧ fracDs = [] then none else
    match cs₃ with
    | e :: r =>
      if e = 'e' ∨ e = 'E' then
        let (esgn, r₁) : Bool × List Char :=
          match r with
          | '-' :: r₂ => (true, r₂)
          | '+' :: r₂ => (false, r₂)
          | _ => (false, r)
        let (expDs, r₂) := r₁.span Char.isDigit
        if expDs = [] then none
        else some (buildRat neg intDs fracDs (if esgn then -(digitsVal expDs : Int) else (digitsVal expDs : Int)), r₂)
      else some (buildRat neg intDs fracDs 0, cs₃)
    | [] => some (buildRat neg intDs fracDs 0, [])
  | [] => none

mutual

/-- Parse one JSON value (fuel-indexed recursive descent). -/
def parseVal : Nat → List Char → Option (Json × List Char)
  | 0, _ => none
  | f + 1, cs =>
    match skipWs cs with
    | '{' :: rest => parseObjBody f rest
    | '[' :: rest => parseArrBody f rest
    | '"' :: rest =>
      match parseStringBody (rest.length + 1) rest [] with
      | some (s, r) => some (.str s, r)
      | none => none
    | 't' :: 'r' :: 'u' :: 'e' :: rest => some (.bool true, rest)
    | 'f' :: 'a' :: 'l' :: 's' :: 'e' :: rest => some (.bool false, rest)
    | 'n' :: 'u' :: 'l' :: 'l' :: rest => some (.null, rest)
    | rest =>
      match parseJsonNumber rest with
      | some (q, r) => some (.num q, r)
      | none => none

/-- Parse an object body (after the opening brace). -/
def parseObjBody : Nat → List Char → Option (Json × List Char)
  | 0, _ => none
  | f + 1, cs =>
    match skipWs cs with
    | '}' :: rest => some (.obj [], rest)
    | rest => parseMembers f rest []

/-- Parse one or more `"key": value` members. -/
def parseMembers : Nat → List Char → List (String × Json) → Option (Json × List Char)
  | 0, _, _ => none
  | f + 1, cs, acc =>
    match skipWs cs with
    | '"' :: rest =>
      match parseStringBody (rest.length + 1) rest [] with
      | some (k, rest₂) =>
        match skipWs rest₂ with
        | ':' :: rest₃ =>
          match parseVal f rest₃ with
          | some (v, rest₄) =>
            match skipWs rest₄ with
            | ',' :: rest₅ => parseMembers f rest₅ ((k, v) :: acc)
            | '}' :: rest₅ => some (.obj ((k, v) :: acc).reverse, rest₅)
            | _ => none
          | none => none
        | _ => none
      | none => none
    | _ => none

/-- Parse an array body (after the opening bracket). -/
def parseArrBody : Nat → List Char → Option (Json × List Char)
  | 0, _ => none
  | f + 1, cs =>
    match skipWs cs with
    | ']' :: rest => some (.arr [], rest)
    | rest => parseItems f rest []

/-- Parse one or more array items. -/
def parseItems : Nat → List Char → List Json → Option (Json × List Char)
  | 0, _, _ => none
  | f + 1, cs, acc =>
    match parseVal f cs with
    | some (v, rest) =>
      match skipWs rest with
      | ',' :: rest₂ => parseItems f rest₂ (v :: acc)
      | ']' :: rest₂ => some (.arr (v :: acc).reverse, rest₂)
      | _ => none
    | none => none

end

/-- `JSON.parse` on a character list: parse one value and require only
whitespace to remain. -/
def jsonParse (cs : List Char) : Option Json :=
  match parseVal (4 * cs.length + 4) cs with
  | some (v, rest) => if skipWs rest = [] then some v else none
  | none => none

/-! ### Brace-span extraction (`responseText.match(/\x7b[\s\S]*\x7d/)`) -/

/-- Index of the first occurrence of `c`, if any. -/
def firstIdx (c : Char) : List Char → Option Nat
  | [] => none
  | x :: xs => if x = c then some 0 else (firstIdx c xs).map (· + 1)

/-- Index of the last occurrence of `c`, if any. -/
def lastIdx (c : Char) (cs : List Char) : Option Nat :=
  (firstIdx c cs.reverse).map (cs.length - 1 - ·)

/-- The greedy regex `/\x7b[\s\S]*\x7d/`: the substring from the first
`{` through the last `}`, when the latter comes after the former. -/
def extractBraceSpan (cs : List Char) : Option (List Char) :=
  match firstIdx '{' cs, lastIdx '}' cs with
  | some i, some j => if i < j then some ((cs.drop i).take (j - i + 1)) else none
  | _, _ => none

/-- The failure kinds of `parseAIResponse`: no `{...}` span in the
text, `JSON.parse` throwing, or a missing/non-array `conditions`
field. -/
inductive ParseError where
  | noJsonFound : ParseError
  | malformedJson : ParseError
  | invalidStructure : ParseError
  deriving Repr, DecidableEq

/-- `AIService.parseAIResponse` (lines 522–550) on a character list:
extract the brace span, `JSON.parse` it, require a truthy array
`conditions` field, and map each element through `normalizeCondition`
(arrays are always truthy, so the `!parsed.conditions` check adds
nothing for arrays and rejects everything else). -/
def parseAIResponseL (cs : List Char) : Except ParseError (List DiagnosisRecord) :=
  match extractBraceSpan cs with
  | none => .error .noJsonFound
  | some span =>
    match jsonParse span with
    | none => .error .malformedJson
    | some parsed =>
      match getField parsed "conditions" with
      | some (.arr conds) => .ok (conds.map normalizeCondition)
      | _ => .error .invalidStructure

/-- `AIService.parseAIResponse` on a string. -/
def parseAIResponse (responseText : String) : Except ParseError (List DiagnosisRecord) :=
  parseAIResponseL responseText.toList

example : jsonParse ("\x7b\"a\":[1,2.5,null,true,\"x\"]\x7d".toList) =
    some (Json.obj [("a", Json.arr [Json.num 1, Json.num (mkRat 5 2), Json.null, Json.bool true, Json.str "x"])]) :=
  rfl
example : parseAIResponse "no braces here" = .error .noJsonFound := rfl
example : parseAIResponse "a \x7b oops \x7d b" = .error .malformedJson := rfl
example : parseAIResponse "\x7b\"a\":1\x7d" = .error .invalidStructure := rfl

/-- The test vector of C6: the source text with surrounding prose. -/
def c6Input : String :=
  "Here is the result: \x7b\"conditions\": [\x7b\"condition\":\"Flu\",\"confidence\":1.4,\"urgency\":\"high\",\"steps\":[\"rest\"]\x7d]\x7d Thanks!"

example : parseAIResponse c6Input =
    .ok [{ condition := some (Json.str "Flu"), confidence := some 1,
           urgency := Json.str "high", steps := Json.arr [Json.str "rest"],
           description := Json.str "" }] := rfl

/-! ### Prompt templates and the provider dispatch (`AIService`) -/

/-- `MEDICAL_PROMPT` (lines 218–244), the text-only template. -/
def MEDICAL_PROMPT : String := String.intercalate "\n" [
  "You are a medical AI assistant designed to help users understand potential health conditions based on their symptoms. ",
  "",
  "IMPORTANT DISCLAIMERS:",
  "- This is for informational purposes only and should not replace professional medical advice",
  "- Always recommend consulting with a healthcare professional",
  "- Do not provide specific medical diagnoses or treatment recommendations",
  "- Focus on general health information and when to seek medical attention",
  "",
  "User\x27s symptoms: \x7bsymptoms\x7d",
  "",
  "Please provide a JSON response with the following structure:",
  "\x7b",
  "  \"conditions\": [",
  "    \x7b",
  "      \"condition\": \"Condition Name\",",
  "      \"confidence\": 0.85,",
  "      \"urgency\": \"low|medium|high\",",
  "      \"steps\": [\"step1\", \"step2\", \"step3\", \"step4\"],",
  "      \"description\": \"Brief description of the condition\"",
  "    \x7d",
  "  ],",
  "  \"general_advice\": \"General health advice based on symptoms\",",
  "  \"when_to_seek_help\": \"When to contact a healthcare provider\",",
  "  \"disclaimer\": \"This information is for educational purposes only and should not replace professional medical advice.\"",
  "\x7d",
  "",
  "Return only the JSON response, no additional text."]

/-- `MEDICAL_PROMPT_WITH_IMAGES` (lines 247–278), the image-aware
template. -/
def MEDICAL_PROMPT_WITH_IMAGES : String := String.intercalate "\n" [
  "You are a medical AI assistant designed to help users understand potential health conditions based on their symptoms and visual analysis of uploaded images.",
  "",
  "IMPORTANT DISCLAIMERS:",
  "- This is for informational purposes only and should not replace professional medical advice",
  "- Always recommend consulting with a healthcare professional",
  "- Do not provide specific medical diagnoses or treatment recommendations",
  "- Focus on general health information and when to seek medical attention",
  "- Visual analysis is limited and should be confirmed by a healthcare professional",
  "",
  "User\x27s symptoms: \x7bsymptoms\x7d",
  "",
  "Please analyze the uploaded images for visible symptoms, rashes, skin conditions, or other external signs that might be relevant to the described symptoms.",
  "",
  "Provide a JSON response with the following structure:",
  "\x7b",
  "  \"conditions\": [",
  "    \x7b",
  "      \"condition\": \"Condition Name\",",
  "      \"confidence\": 0.85,",
  "      \"urgency\": \"low|medium|high\",",
  "      \"steps\": [\"step1\", \"step2\", \"step3\", \"step4\"],",
  "      \"description\": \"Brief description of the condition\",",
  "      \"visual_analysis\": \"Analysis of visible symptoms from images\"",
  "    \x7d",
  "  ],",
  "  \"visual_findings\": \"Summary of what was observed in the images\",",
  "  \"general_advice\": \"General health advice based on symptoms and visual analysis\",",
  "  \"when_to_seek_help\": \"When to contact a healthcare provider\",",
  "  \"disclaimer\": \"This information is for educational purposes only and should not replace professional medical advice. Visual analysis is limited and should be confirmed by a healthcare professional.\"",
  "\x7d",
  "",
  "Return only the JSON response, no additional text."]

/-- JS `String.prototype.replace` with a string pattern: replace only
the first occurrence (the original text when the pattern is absent). -/
def replaceFirstL (cs pat repl : List Char) : List Char :=
  match cs with
  | [] => []
  | c :: rest =>
    if pat.isPrefixOf cs then repl ++ cs.drop pat.length
    else c :: replaceFirstL rest pat repl

/-- `s.replace(pat, repl)` on strings (first occurrence only). -/
def replaceFirst (s pat repl : String) : String :=
  String.mk (replaceFirstL s.toList pat.toList repl.toList)

/-- The rendered prompt of `AIService.diagnose` (lines 314–316): the
symptom list joined with `', '` interpolated into the image-aware
template when `hasImages`, otherwise into the text-only template. -/
def promptFor (symptoms : List String) (hasImages : Bool) : String :=
  if hasImages then
    replaceFirst MEDICAL_PROMPT_WITH_IMAGES "\x7bsymptoms\x7d" (String.intercalate ", " symptoms)
  else
    replaceFirst MEDICAL_PROMPT "\x7bsymptoms\x7d" (String.intercalate ", " symptoms)

/-- `AIService.diagnose`'s prompt construction (lines 311–316):
`hasImages = images && images.length > 0` selects the template. -/
def aiServicePrompt {α : Type} (symptoms : List String) (images : List α) : String :=
  promptFor symptoms (decide (0 < images.length))

/-- The prompt handed to the provider strategy when a caller invokes
the exported `diagnose(symptoms, images)` the way `App.jsx` (line 20)
does: the exported `diagnose` is declared as `diagnose(symptoms)`
(line 588), so the second argument is dropped and
`aiService.diagnose(symptoms)` (line 598) runs with its default
`images = []`. -/
def diagnoseSentPrompt {α : Type} (symptoms : List String) (images : List α) : String :=
  aiServicePrompt symptoms ([] : List Unit)

/-- The environment configuration read at module load (lines 191–215):
the resolved `AI_SERVICE` selector and the per-provider credential
fields. -/
structure EnvConfig where
  service : String
  geminiKey : Option String
  openaiKey : Option String
  azureKey : Option String
  azureEndpoint : Option String
  azureDeployment : Option String
  anthropicKey : Option String

/-- JS truthiness of a possibly-absent environment string. -/
def optTruthy : Option String → Bool
  | some s => s ≠ ""
  | none => false

/-- `AIService.validateConfig` (lines 286–307), the only observable
effect of the `AIService` constructor: `.error msg` models the
constructor throwing. -/
def mkAIService (env : EnvConfig) : Except String Unit :=
  if env.service ≠ "gemini" ∧ env.service ≠ "openai" ∧ env.service ≠ "azure" ∧ env.service ≠ "anthropic" then
    .error ("Invalid AI service: " ++ env.service ++ ". Supported services: gemini, openai, azure, anthropic")
  else if env.service = "gemini" ∧ ¬ optTruthy env.geminiKey then
    .error "Google Gemini API key not found. Please set VITE_GEMINI_API_KEY in your .env file"
  else if env.service = "openai" ∧ ¬ optTruthy env.openaiKey then
    .error "OpenAI API key not found. Please set VITE_OPENAI_API_KEY in your .env file"
  else if env.service = "azure" ∧ ¬ (optTruthy env.azureKey ∧ optTruthy env.azureEndpoint ∧ optTruthy env.azureDeployment) then
    .error "Azure OpenAI configuration incomplete. Please check your .env file"
  else if env.service = "anthropic" ∧ ¬ optTruthy env.anthropicKey then
    .error "Anthropic API key not found. Please set VITE_ANTHROPIC_API_KEY in your .env file"
  else .ok ()

/-- `getAIService` (lines 575–585): `none` (JS `null`) when the
`AIService` constructor throws. -/
def getAIService (env : EnvConfig) : Option Unit :=
  match mkAIService env with
  | .ok u => some u
  | .error _ => none

/-- `AIService.getMockFallback` (lines 553–569): the static offline
record set (its `symptoms` parameter is unused in the source too). -/
def getMockFallback (symptoms : List String) : List DiagnosisRecord :=
  [{ condition := some (Json.str "General Health Assessment"),
     confidence := some (mkRat 7 10),
     urgency := Json.str "low",
     steps := Json.arr [
       Json.str "Monitor your symptoms closely",
       Json.str "Get adequate rest and stay hydrated",
       Json.str "Consider over-the-counter pain relief if appropriate",
       Json.str "Consult a healthcare professional if symptoms worsen or persist"],
     description := Json.str "Based on your symptoms, it\x27s important to monitor your condition and seek professional medical advice." }]

/-- The message `parseAIResponse` rethrows (lines 545–549).  The
`malformedJson` inner text is the engine-specific `SyntaxError`
message, modelled as a constant; no claim depends on it. -/
def parseErrorMsg : ParseError → String
  | .noJsonFound => "No JSON found in AI response"
  | .malformedJson => "Unexpected token in JSON"
  | .invalidStructure => "Invalid response structure: missing conditions array"

/-- `AIService.diagnose` (lines 309–334) downstream of prompt
construction.  The network boundary is a parameter: `providerResult`
is the outcome of the selected provider call after envelope
unwrapping — `.error msg` models a thrown network error, a non-2xx
status (lines 397–400 etc.), or a malformed envelope (lines 404–406);
`.ok text` is the extracted response text fed to `parseAIResponse`.
Every error is re-thrown wrapped as `AI diagnosis failed: ...`
(line 332). -/
def aiServiceDiagnose (providerResult : Except String String) : Except String (List DiagnosisRecord) :=
  match providerResult with
  | .error msg => .error ("AI diagnosis failed: " ++ msg)
  | .ok text =>
    match parseAIResponse text with
    | .ok recs => .ok recs
    | .error e => .error ("AI diagnosis failed: Failed to parse AI response: " ++ parseErrorMsg e)

/-- The exported top-level `diagnose` (lines 588–604).  When
`getAIService` returns `null`, line 593 constructs `new AIService()`
outside any try/catch, so the constructor error propagates; when the
provider call or normalization fails, line 601 constructs
`new AIService()` inside the catch and serves the fallback. -/
def diagnose (env : EnvConfig) (providerResult : Except String String) (symptoms : List String) :
    Except String (List DiagnosisRecord) :=
  match getAIService env with
  | none =>
    match mkAIService env with
    | .error e => .error e
    | .ok _ => .ok (getMockFallback symptoms)
  | some _ =>
    match aiServiceDiagnose providerResult with
    | .ok recs => .ok recs
    | .error _ =>
      match mkAIService env with
      | .error e => .error e
      | .ok _ => .ok (getMockFallback symptoms)

/-! ### The symptom form (`SymptomForm.jsx`) -/

/-- JS `split(',')` on characters: the comma-separated chunks
(`['']` for the empty input, like `''.split(',')`). -/
def splitOnComma : List Char → List (List Char)
  | [] => [[]]
  | c :: rest =>
    if c = ',' then [] :: splitOnComma rest
    else
      match splitOnComma rest with
      | t :: ts => (c :: t) :: ts
      | [] => [[c]]

/-- Line 45 of `SymptomForm.jsx`:
`freeTextSymptoms ? freeTextSymptoms.split(',').map(s => s.trim()).filter(Boolean) : []`. -/
def splitSymptoms (freeTextSymptoms : String) : List String :=
  if freeTextSymptoms ≠ "" then
    (((splitOnComma freeTextSymptoms.toList).map (fun t => String.mk (trimChars t)))).filter (fun s => s ≠ "")
  else []

/-- `SymptomForm.handleSubmit` (lines 40–60): `none` models the
rejected submission (alert, no `onSubmit` call); `some (syms, imgs)`
models `onSubmit(syms, imgs)` being invoked. -/
def handleSubmit {α : Type} (selectedSymptoms : List String) (freeTextSymptoms : String)
    (images : List α) : Option (List String × List α) :=
  let allSymptoms := selectedSymptoms ++ splitSymptoms freeTextSymptoms
  if allSymptoms.length = 0 then none
  else some (allSymptoms, if 0 < images.length then images else [])

example : splitSymptoms " fever , , sore throat" = ["fever", "sore throat"] := rfl
example : handleSubmit ["Cough"] "" ([] : List Unit) = some (["Cough"], []) := rfl
example : handleSubmit [] " , " ([] : List Unit) = none := rfl

/-! ### Helper lemmas -/

theorem ratMax_eq_max (a b : ℚ) : ratMax a b = max a b := by
  unfold ratMax
  by_cases h : b < a
  · simp only [show Rat.blt b a = true from h, if_true]
    exact (max_eq_left h.le).symm
  · have hf : Rat.blt b a = false := by
      cases hb : Rat.blt b a
      · rfl
      · exact absurd (hb : b < a) h
    simp only [hf, Bool.false_eq_true, if_false]
    exact (max_eq_right (not_lt.mp h)).symm

theorem ratMin_eq_min (a b : ℚ) : ratMin a b = min a b := by
  unfold ratMin
  by_cases h : b < a
  · simp only [show Rat.blt b a = true from h, if_true]
    exact (min_eq_right h.le).symm
  · have hf : Rat.blt b a = false := by
      cases hb : Rat.blt b a
      · rfl
      · exact absurd (hb : b < a) h
    simp only [hf, Bool.false_eq_true, if_false]
    exact (min_eq_left (not_lt.mp h)).symm

theorem mkRat_half : mkRat 1 2 = (1/2 : ℚ) := by
  rw [Rat.mkRat_eq_div]; norm_num

theorem jsOrNum_none (d : ℚ) : jsOrNum none d = some d := rfl

theorem jsOrNum_num (q d : ℚ) :
    jsOrNum (some (Json.num q)) d = some (if q = 0 then d else q) := by
  by_cases hq : q = 0 <;> simp [jsOrNum, truthyJson, toNum, hq]

theorem jsClamp_eq (x : ℚ) :
    jsMin (jsMax (some x) (some 0)) (some 1) = some (min (max x 0) 1) := by
  simp [jsMax, jsMin, ratMax_eq_max, ratMin_eq_min]

/-- The `||`-default of the confidence field: `0.5` for a missing or
zero (falsy) number, otherwise the number itself. -/
def jsOrHalf : Option ℚ → ℚ
  | some q => if q = 0 then 1/2 else q
  | none => 1/2

theorem confidence_clamped (c : Json) (v : Option ℚ)
    (h : getField c "confidence" = v.map Json.num) :
    (normalizeCondition c).confidence = some (min (max (jsOrHalf v) 0) 1) := by
  cases v with
  | none =>
    simp only [Option.map_none'] at h
    simp [normalizeCondition, h, jsOrNum_none, jsClamp_eq, mkRat_half, jsOrHalf]
  | some q =>
    simp only [Option.map_some'] at h
    by_cases hq : q = 0 <;>
      simp [normalizeCondition, h, jsOrNum_num, jsClamp_eq, mkRat_half, jsOrHalf, hq]

theorem firstIdx_eq_none (c : Char) (cs : List Char) (h : ∀ x ∈ cs, x ≠ c) :
    firstIdx c cs = none := by
  induction cs with
  | nil => rfl
  | cons x xs ih =>
    simp only [firstIdx]
    rw [if_neg (h x (List.mem_cons_self x xs)), ih (fun y hy => h y (List.mem_cons_of_mem x hy))]
    rfl

/-- An environment with the default service selected and no API key
(the unconfigured state `AIConfigStatus` warns about). -/
def envNoGeminiKey : EnvConfig :=
  { service := "gemini", geminiKey := none, openaiKey := none, azureKey := none,
    azureEndpoint := none, azureDeployment := none, anthropicKey := none }

/-- An environment with a configured Gemini key. -/
def envGeminiOk : EnvConfig :=
  { envNoGeminiKey with geminiKey := some "key" }

/-- C1 (code_bug evidence).  When the AI service is unconfigured the
exported `diagnose` does NOT serve the fallback: `getAIService` returns
`null`, and line 593 runs `new AIService()` outside any try/catch, so
the constructor error propagates to the caller.  A provider failure
with a configured service does fall back to the non-empty static set,
as the claim describes. -/
theorem diagnose_unconfigured_throws_configured_falls_back :
    diagnose envNoGeminiKey (.ok "\x7b\"conditions\":[]\x7d") ["fever"] =
      .error "Google Gemini API key not found. Please set VITE_GEMINI_API_KEY in your .env file" ∧
    diagnose envGeminiOk (.error "Google Gemini API error: 500 - Unknown error") ["fever"] =
      .ok (getMockFallback ["fever"]) ∧
    getMockFallback ["fever"] ≠ [] :=
  ⟨rfl, rfl, by simp [getMockFallback]⟩

/-- C2 (counterexample).  A present numeric confidence of `0` is not
clamped to `0` as the claim's `clamp(value ?? 0.5, 0, 1)` demands: the
source uses `||`, so `0` is falsy and the output is `0.5`. -/
theorem confidence_zero_not_clamped_to_zero :
    (normalizeCondition (Json.obj [("confidence", Json.num 0)])).confidence = some (mkRat 1 2) ∧
    (normalizeCondition (Json.obj [("confidence", Json.num 0)])).confidence ≠ some 0 ∧
    min (max (0 : ℚ) 0) 1 = 0 :=
  ⟨by decide, by decide, by rw [max_self]; exact min_eq_left zero_le_one⟩

/-- C2 (amended).  For every element whose `confidence` field is a
number or missing, the output confidence is
`clamp(confidence || 0.5, 0, 1)`: a present nonzero number is clamped
into `[0,1]`, while a missing confidence and the falsy value `0` both
default to `0.5`. -/
theorem confidence_clamp_or_default (c : Json) (v : Option ℚ)
    (h : getField c "confidence" = v.map Json.num) :
    (normalizeCondition c).confidence = some (min (max (jsOrHalf v) 0) 1) :=
  confidence_clamped c v h

/-- Witness for the amended C2 at confidence `3/2`. -/
theorem confidence_clamp_or_default_witness :
    (normalizeCondition (Json.obj [("confidence", Json.num (mkRat 3 2))])).confidence =
      some (min (max (jsOrHalf (some (mkRat 3 2))) 0) 1) :=
  confidence_clamp_or_default (Json.obj [("confidence", Json.num (mkRat 3 2))])
    (some (mkRat 3 2)) rfl

/-- C3 (code_bug evidence).  `AIService.diagnose` does select the
image-aware template exactly when `images` is non-empty (third
conjunct), but the exported `diagnose(symptoms)` drops the `images`
argument its caller passes (line 588 vs. `App.jsx` line 20), so the
prompt actually sent for a request with one image is the text-only
rendering and differs from the image-aware rendering. -/
theorem top_level_diagnose_drops_images_prompt :
    diagnoseSentPrompt ["rash"] [()] = promptFor ["rash"] false ∧
    diagnoseSentPrompt ["rash"] [()] ≠ promptFor ["rash"] true ∧
    aiServicePrompt ["rash"] [()] = promptFor ["rash"] true :=
  ⟨rfl, by decide, rfl⟩

/-- C4 (counterexample).  The claimed invariant fails on both of its
components.  Urgency: the unrecognized string `"critical"` is passed
through unchanged instead of resolving to one of the three enum
values.  Confidence: the truthy non-numeric string `"abc"` survives
`|| 0.5` and `Math.min(Math.max("abc", 0), 1)` is `NaN` (modelled
`none`), so the record's confidence is no number in `[0,1]` at all. -/
theorem urgency_enum_and_confidence_range_counterexample :
    ¬ ((normalizeCondition (Json.obj [("urgency", Json.str "critical")])).urgency = Json.str "low" ∨
       (normalizeCondition (Json.obj [("urgency", Json.str "critical")])).urgency = Json.str "medium" ∨
       (normalizeCondition (Json.obj [("urgency", Json.str "critical")])).urgency = Json.str "high") ∧
    (normalizeCondition (Json.obj [("confidence", Json.str "abc")])).confidence = none ∧
    ∀ r : ℚ, (normalizeCondition (Json.obj [("confidence", Json.str "abc")])).confidence ≠ some r := by
  refine ⟨?_, by decide, fun r h => nomatch h⟩
  intro h
  have e : (normalizeCondition (Json.obj [("urgency", Json.str "critical")])).urgency
      = Json.str "critical" := rfl
  rw [e] at h
  rcases h with h | h | h <;> exact absurd (Json.str.inj h) (by decide)

/-- C4 (amended).  For every element of the parsed conditions array,
the record's confidence is either a number clamped into `[0,1]` or
`NaN` — and `NaN` only arises from a present, truthy confidence field
whose JS number coercion is `NaN` (a non-numeric string, array or
object); the record's urgency is either the default `"low"` (field
absent or falsy) or the field's value passed through unchanged, with
no validation against the three enum values. -/
theorem record_confidence_clamped_or_nan_urgency_passthrough (c : Json) :
    ((∃ r, (normalizeCondition c).confidence = some r ∧ 0 ≤ r ∧ r ≤ 1) ∨
      ((normalizeCondition c).confidence = none ∧
        ∃ u, getField c "confidence" = some u ∧ truthyJson u = true ∧ toNum u = none)) ∧
    ((normalizeCondition c).urgency = Json.str "low" ∨
      ∃ u, getField c "urgency" = some u ∧ (normalizeCondition c).urgency = u) := by
  constructor
  · have e : (normalizeCondition c).confidence =
        jsMin (jsMax (jsOrNum (getField c "confidence") (mkRat 1 2)) (some 0)) (some 1) := rfl
    cases hf : getField c "confidence" with
    | none =>
      refine Or.inl ⟨min (max (1/2 : ℚ) 0) 1, ?_,
        le_min (le_max_right _ _) zero_le_one, min_le_right _ _⟩
      rw [e, hf, jsOrNum_none, mkRat_half, jsClamp_eq]
    | some u =>
      by_cases ht : truthyJson u
      · cases hn : toNum u with
        | some q =>
          refine Or.inl ⟨min (max q 0) 1, ?_,
            le_min (le_max_right _ _) zero_le_one, min_le_right _ _⟩
          rw [e, hf]
          simp [jsOrNum, ht, hn, jsClamp_eq]
        | none =>
          refine Or.inr ⟨?_, u, rfl, ht, hn⟩
          rw [e, hf]
          simp [jsOrNum, ht, hn, jsMax, jsMin]
      · refine Or.inl ⟨min (max (1/2 : ℚ) 0) 1, ?_,
          le_min (le_max_right _ _) zero_le_one, min_le_right _ _⟩
        rw [e, hf]
        simp [jsOrNum, ht, mkRat_half, jsClamp_eq]
  · rw [show (normalizeCondition c).urgency = jsOr (getField c "urgency") (Json.str "low") from rfl]
    cases hu : getField c "urgency" with
    | none => exact Or.inl rfl
    | some u =>
      by_cases ht : truthyJson u
      · exact Or.inr ⟨u, rfl, by simp [jsOr, ht]⟩
      · exact Or.inl (by simp [jsOr, ht])

/-- C5 (counterexample).  A present but empty-string urgency is not
passed through unchanged: `""` is falsy under `||`, so the output is
`"low"`. -/
theorem urgency_empty_string_not_passed_through :
    (normalizeCondition (Json.obj [("urgency", Json.str "")])).urgency = Json.str "low" ∧
    (normalizeCondition (Json.obj [("urgency", Json.str "")])).urgency ≠ Json.str "" := by
  refine ⟨rfl, ?_⟩
  intro h
  have e : (normalizeCondition (Json.obj [("urgency", Json.str "")])).urgency = Json.str "low" := rfl
  rw [e] at h
  exact absurd (Json.str.inj h) (by decide)

/-- C5 (amended).  A missing urgency yields `"low"`; a present truthy
value is passed through unchanged; a present falsy value (the empty
string, `0`, `false`, `null`) also yields `"low"`. -/
theorem urgency_or_low_default (c : Json) (u : Option Json) (h : getField c "urgency" = u) :
    (normalizeCondition c).urgency =
      match u with
      | some v => if truthyJson v then v else Json.str "low"
      | none => Json.str "low" := by
  have e : (normalizeCondition c).urgency = jsOr u (Json.str "low") := by
    rw [show (normalizeCondition c).urgency = jsOr (getField c "urgency") (Json.str "low") from rfl, h]
  rw [e]
  cases u <;> rfl

/-- Witness for the amended C5 at the empty-string urgency. -/
theorem urgency_or_low_default_witness :
    (normalizeCondition (Json.obj [("urgency", Json.str "")])).urgency =
      match some (Json.str "") with
      | some v => if truthyJson v then v else Json.str "low"
      | none => Json.str "low" :=
  urgency_or_low_default (Json.obj [("urgency", Json.str "")]) (some (Json.str "")) rfl

/-- C6.  Normalizing the spec's test vector (prose around a JSON
object whose single condition has confidence `1.4`) yields exactly one
record `Flu` with confidence clamped to `1`, urgency `"high"`, steps
`["rest"]` and empty description. -/
theorem parseAIResponse_flu_vector :
    parseAIResponse c6Input =
      .ok [{ condition := some (Json.str "Flu"), confidence := some 1,
             urgency := Json.str "high", steps := Json.arr [Json.str "rest"],
             description := Json.str "" }] := rfl

/-- C8.  For every response text without any `{` or `}` character,
normalization fails with `noJsonFound`. -/
theorem parseAIResponse_no_braces_noJsonFound (s : String)
    (h : ∀ x ∈ s.toList, x ≠ '{' ∧ x ≠ '}') :
    parseAIResponse s = .error .noJsonFound := by
  have h1 : firstIdx '{' s.toList = none := firstIdx_eq_none _ _ (fun x hx => (h x hx).1)
  rw [show parseAIResponse s = parseAIResponseL s.toList from rfl]
  unfold parseAIResponseL extractBraceSpan
  simp only [h1]

/-- Witness for C8: a plain English sentence. -/
theorem parseAIResponse_no_braces_noJsonFound_witness :
    parseAIResponse "Sorry, I cannot help with that." = .error .noJsonFound :=
  parseAIResponse_no_braces_noJsonFound "Sorry, I cannot help with that." (by decide)

/-- C9.  For every response text whose extracted brace span parses as
JSON but whose parse lacks an array `conditions` field, normalization
fails with `invalidStructure`. -/
theorem parseAIResponse_missing_conditions_invalidStructure (s : String) (span : List Char)
    (j : Json)
    (h1 : extractBraceSpan s.toList = some span)
    (h2 : jsonParse span = some j)
    (h3 : ∀ elems, getField j "conditions" ≠ some (Json.arr elems)) :
    parseAIResponse s = .error .invalidStructure := by
  rw [show parseAIResponse s = parseAIResponseL s.toList from rfl]
  unfold parseAIResponseL
  simp only [h1, h2]

/-- Witness for C9: an object with no `conditions` field. -/
theorem parseAIResponse_missing_conditions_invalidStructure_witness :
    parseAIResponse "\x7b\"a\":1\x7d" = .error .invalidStructure :=
  parseAIResponse_missing_conditions_invalidStructure "\x7b\"a\":1\x7d"
    ("\x7b\"a\":1\x7d".toList) (Json.obj [("a", Json.num 1)]) rfl rfl
    (fun _ h => nomatch h)

/-- C10.  Whenever the form's `handleSubmit` invokes `onSubmit`, the
symptom list is the selected checklist symptoms followed by the
free-text input split on commas, each token trimmed, empty tokens
removed — and that list is never empty (empty submissions are
rejected before `onSubmit`). -/
theorem handleSubmit_symptom_list {α : Type} (selected : List String) (freeText : String)
    (images : List α) (syms : List String) (imgs : List α)
    (h : handleSubmit selected freeText images = some (syms, imgs)) :
    syms = selected ++
      ((splitOnComma freeText.toList).map (fun t => String.mk (trimChars t))).filter
        (fun s => s ≠ "") ∧
    syms ≠ [] := by
  have hsplit : splitSymptoms freeText =
      ((splitOnComma freeText.toList).map (fun t => String.mk (trimChars t))).filter
        (fun s => s ≠ "") := by
    by_cases hft : freeText = ""
    · subst hft; rfl
    · simp [splitSymptoms, hft]
  simp only [handleSubmit] at h
  by_cases hl : (selected ++ splitSymptoms freeText).length = 0
  · rw [if_pos hl] at h
    exact absurd h (by simp)
  · rw [if_neg hl] at h
    simp only [Option.some.injEq, Prod.mk.injEq] at h
    obtain ⟨h1, h2⟩ := h
    subst h1
    refine ⟨by rw [hsplit], ?_⟩
    intro hnil
    apply hl
    rw [hnil]
    rfl

/-- Witness for C10 at one checked symptom plus free text `" cough , "`. -/
theorem handleSubmit_symptom_list_witness :
    (["Fever", "cough"] : List String) = ["Fever"] ++
      ((splitOnComma (" cough , ".toList)).map (fun t => String.mk (trimChars t))).filter
        (fun s => s ≠ "") ∧
    (["Fever", "cough"] : List String) ≠ [] :=
  handleSubmit_symptom_list ["Fever"] " cough , " ([()] : List Unit) ["Fever", "cough"] [()] rfl
